import Mathlib

/-!
Shallow embedding of the ownership-scoped CRUD core of the task-management
backend (business-logic layer of `app/business_logic/todo_logic.py` and
`app/business_logic/item_logic.py`, plus the schema-validated HTTP item
paths of `app/resources/items.py`), together with theorems settling the
specification claims about it.

The relational store is modelled as two lists of rows (`todos`, `items`);
SQLAlchemy queries become `List.find?` / `List.filter` over those rows, and
the join `Item.query.join(Item.todo)` becomes an existence test over the
parent `todos` table.  Each business-logic function returns the post-state
of the store together with the `(result, error)` pair the Python function
returns.
-/

namespace TaskApi

/-- `VALID_STATUSES` from `item_logic.py`. -/
def VALID_STATUSES : List String := ["Pending", "Partially Completed", "Completed"]

/-- A single-quote character (Python `repr` quoting for the error strings). -/
def sq : String := String.singleton (Char.ofNat 39)

/-- Python `str` of a list of strings, as interpolated into f-strings. -/
def pyListRepr (xs : List String) : String :=
  "[" ++ String.intercalate ", " (xs.map (fun s => sq ++ s ++ sq)) ++ "]"

def itemNotFoundMsg : String := "Item not found or you don" ++ sq ++ "t have permission"

def todoNotFoundOrPermMsg : String := "Todo not found or you don" ++ sq ++ "t have permission"

def todoNotFoundMsg : String := "Todo not found"

def noMatchingTodosMsg : String := "No matching todos found"

def missingStatusMsg : String := "Missing status for bulk update"

def invalidActionTodoMsg : String := "Invalid action"

/-- `f"Invalid status. Must be one of {VALID_STATUSES}"`. -/
def invalidStatusMsg : String := "Invalid status. Must be one of " ++ pyListRepr VALID_STATUSES

/-- `f"Invalid action. Must be one of {VALID_STATUSES} or 'delete'"`. -/
def invalidActionItemMsg : String :=
  "Invalid action. Must be one of " ++ pyListRepr VALID_STATUSES ++ " or " ++ sq ++ "delete" ++ sq

/-- A row of the `todos` table (`app/models/todo.py`). -/
structure Todo where
  id : Int
  title : String
  description : Option String
  status : String
  completed : Bool
  user_id : Int
deriving Repr, DecidableEq

/-- A row of the `items` table (`app/models/item.py`); dates are day ordinals. -/
structure Item where
  id : Int
  content : String
  status : String
  due_date : Option Int
  todo_id : Int
deriving Repr, DecidableEq

/-- The relational store: the two tables the CRUD core touches. -/
structure DB where
  todos : List Todo
  items : List Item
deriving Repr, DecidableEq

/-- `Todo.query.filter_by(id=todo_id, user_id=user_id).first()`. -/
def findTodo (db : DB) (todo_id user_id : Int) : Option Todo :=
  db.todos.find? (fun t => t.id == todo_id && t.user_id == user_id)

/-- The `Item.query.join(Item.todo)` ownership test: the parent todo row
exists and belongs to `user_id`. -/
def itemOwnedBy (db : DB) (user_id : Int) (i : Item) : Bool :=
  db.todos.any (fun t => t.id == i.todo_id && t.user_id == user_id)

/-- `get_todo_by_id` from `todo_logic.py`. -/
def get_todo_by_id (db : DB) (todo_id user_id : Int) : Option Todo :=
  findTodo db todo_id user_id

/-- `get_item_by_id` from `item_logic.py`:
`Item.query.join(Item.todo).filter(Item.id == item_id, Todo.user_id == user_id).first()`. -/
def get_item_by_id (db : DB) (item_id user_id : Int) : Option Item :=
  db.items.find? (fun i => i.id == item_id && itemOwnedBy db user_id i)

/-- `add_item_to_todo` from `item_logic.py`.  `new_id` stands for the
database-assigned primary key of the inserted row. -/
def add_item_to_todo (db : DB) (todo_id user_id : Int) (content : String)
    (due_date : Option Int) (status : String) (new_id : Int) :
    DB × Option Item × Option String :=
  match findTodo db todo_id user_id with
  | none => (db, none, some todoNotFoundOrPermMsg)
  | some todo =>
    let item : Item := { id := new_id, content := content, status := status,
                         due_date := due_date, todo_id := todo.id }
    ({ db with items := db.items ++ [item] }, some item, none)

/-- `update_item_status` from `item_logic.py`: ownership-joined lookup first,
then the `VALID_STATUSES` membership check, then the mutation and commit. -/
def update_item_status (db : DB) (item_id user_id : Int) (new_status : String) :
    DB × Option Item × Option String :=
  match get_item_by_id db item_id user_id with
  | none => (db, none, some itemNotFoundMsg)
  | some item =>
    if VALID_STATUSES.contains new_status then
      let item' : Item := { item with status := new_status }
      ({ db with items := db.items.map (fun i =>
          if i.id == item.id then { i with status := new_status } else i) },
       some item', none)
    else
      (db, none, some invalidStatusMsg)

/-- `delete_item` from `item_logic.py`. -/
def delete_item (db : DB) (item_id user_id : Int) : DB × Bool × Option String :=
  match get_item_by_id db item_id user_id with
  | none => (db, false, some itemNotFoundMsg)
  | some item =>
    ({ db with items := db.items.filter (fun i => i.id != item.id) }, true, none)

/-- The page object returned by `query.paginate(...)` for item listings. -/
structure PageResult where
  items : List Item
  total : Nat
  page : Nat
  pages : Nat
  per_page : Nat
deriving Repr, DecidableEq

/-- `get_items_for_todo` from `item_logic.py`: parent-todo ownership check,
then `paginate(page=page, per_page=min(per_page, 100), error_out=False)`. -/
def get_items_for_todo (db : DB) (todo_id user_id : Int) (page per_page : Nat) :
    Option PageResult × Option String :=
  match findTodo db todo_id user_id with
  | none => (none, some todoNotFoundOrPermMsg)
  | some _ =>
    let rows := db.items.filter (fun i => i.todo_id == todo_id)
    let pp := min per_page 100
    (some { items := (rows.drop ((page - 1) * pp)).take pp,
            total := rows.length,
            page := page,
            pages := (rows.length + pp - 1) / pp,
            per_page := pp }, none)

/-- `create_todo` from `todo_logic.py` (`new_id` is the database-assigned key). -/
def create_todo (db : DB) (title : String) (user_id : Int)
    (description : Option String) (status : String) (new_id : Int) : DB × Todo :=
  let todo : Todo := { id := new_id, title := title, description := description,
                       status := status, completed := false, user_id := user_id }
  ({ db with todos := db.todos ++ [todo] }, todo)

/-- `get_todos` from `todo_logic.py`: paginated, with no clamp on `per_page`. -/
def get_todos (db : DB) (user_id : Int) (page per_page : Nat) : List Todo :=
  let rows := db.todos.filter (fun t => t.user_id == user_id)
  (rows.drop ((page - 1) * per_page)).take per_page

/-- The partial update payload of `update_todo`: presence of a key in the
JSON `data` dict is an outer `some`; `description` may be present and null. -/
structure TodoUpdate where
  title : Option String
  description : Option (Option String)
  status : Option String
  completed : Option Bool
deriving Repr, DecidableEq

/-- The field-merge loop of `update_todo`: each `if "k" in data` branch. -/
def applyTodoUpdate (data : TodoUpdate) (t : Todo) : Todo :=
  { t with
    title := data.title.getD t.title,
    description := match data.description with
      | some d => d
      | none => t.description,
    status := data.status.getD t.status,
    completed := data.completed.getD t.completed }

/-- `update_todo` from `todo_logic.py`. -/
def update_todo (db : DB) (todo_id user_id : Int) (data : TodoUpdate) :
    DB × Option Todo × Option String :=
  match findTodo db todo_id user_id with
  | none => (db, none, some todoNotFoundMsg)
  | some todo =>
    ({ db with todos := db.todos.map (fun t =>
        if t.id == todo.id then applyTodoUpdate data t else t) },
     some (applyTodoUpdate data todo), none)

/-- `delete_todo` from `todo_logic.py`; `db.session.delete(todo)` cascades
(`cascade="all, delete-orphan"` on `Todo.items`) to the todo's items. -/
def delete_todo (db : DB) (todo_id user_id : Int) : DB × Bool × Option String :=
  match findTodo db todo_id user_id with
  | none => (db, false, some todoNotFoundMsg)
  | some todo =>
    ({ todos := db.todos.filter (fun t => t.id != todo.id),
       items := db.items.filter (fun i => i.todo_id != todo.id) }, true, none)

/-- The row-selection predicate of `bulk_update_items`:
`Item.id.in_(item_ids)` joined with `Todo.user_id == user_id`. -/
def bulkItemSelected (db : DB) (user_id : Int) (item_ids : List Int) (i : Item) : Bool :=
  item_ids.contains i.id && itemOwnedBy db user_id i

/-- `bulk_update_items` from `item_logic.py`. -/
def bulk_update_items (db : DB) (user_id : Int) (item_ids : List Int)
    (action : String) : DB × Bool × Option String :=
  let sel := bulkItemSelected db user_id item_ids
  let items := db.items.filter sel
  if items.isEmpty then
    (db, false, some itemNotFoundMsg)
  else if action == "delete" then
    ({ db with items := db.items.filter (fun i => !sel i) }, true, none)
  else if VALID_STATUSES.contains action then
    ({ db with items := db.items.map (fun i =>
        if sel i then { i with status := action } else i) }, true, none)
  else
    (db, false, some invalidActionItemMsg)

/-- The row-selection predicate of `bulk_update_todos`:
`Todo.id.in_(todo_ids), Todo.user_id == user_id`. -/
def bulkTodoSelected (user_id : Int) (todo_ids : List Int) (t : Todo) : Bool :=
  todo_ids.contains t.id && t.user_id == user_id

/-- Python `not status` for the `status=None` keyword argument:
true for `None` and for the empty string. -/
def statusFalsy (status : Option String) : Bool :=
  match status with
  | none => true
  | some s => s.isEmpty

/-- `bulk_update_todos` from `todo_logic.py`.  The body runs inside
`try/except`; `commitFail = some msg` models `db.session.commit()` raising an
exception whose `str(e)` is `msg`, upon which the code rolls back (the
committed store is unchanged) and returns `(False, str(e))`.  Deleting a todo
cascades to its items. -/
def bulk_update_todos (db : DB) (user_id : Int) (todo_ids : List Int)
    (action : String) (status : Option String) (commitFail : Option String) :
    DB × Bool × Option String :=
  let sel := bulkTodoSelected user_id todo_ids
  let todos := db.todos.filter sel
  if todos.isEmpty then
    (db, false, some noMatchingTodosMsg)
  else if action == "delete" then
    match commitFail with
    | some msg => (db, false, some msg)
    | none =>
      ({ todos := db.todos.filter (fun t => !sel t),
         items := db.items.filter (fun i =>
           !(db.todos.any (fun t => sel t && t.id == i.todo_id))) }, true, none)
  else if action == "update_status" then
    if statusFalsy status then
      (db, false, some missingStatusMsg)
    else
      match commitFail with
      | some msg => (db, false, some msg)
      | none =>
        ({ db with todos := db.todos.map (fun t =>
            if sel t then { t with status := status.getD "" } else t) }, true, none)
  else
    (db, false, some invalidActionTodoMsg)

/-- `ItemSchema`'s `status` field (`app/schemas/item.py`): `load_default`
`"Pending"` when absent, `validate.OneOf(VALID_STATUSES)` when present;
`none` is a marshmallow validation error (HTTP 422). -/
def itemSchemaLoadStatus (status : Option String) : Option String :=
  match status with
  | none => some "Pending"
  | some s => if VALID_STATUSES.contains s then some s else none

/-- The HTTP `POST /todos/{todo_id}/items` path (`resources/items.py`):
schema validation happens first (the `@blp.arguments` decorator), then the
parent-todo ownership check, then `Item(**item_data, todo_id=todo.id)`. -/
def http_create_item (db : DB) (todo_id user_id : Int) (content : String)
    (status_in : Option String) (due_date : Option Int) (new_id : Int) :
    DB × Option Item × Option String :=
  match itemSchemaLoadStatus status_in with
  | none => (db, none, some "Unprocessable Entity")
  | some st =>
    match findTodo db todo_id user_id with
    | none => (db, none, some todoNotFoundOrPermMsg)
    | some todo =>
      let item : Item := { id := new_id, content := content, status := st,
                           due_date := due_date, todo_id := todo.id }
      ({ db with items := db.items ++ [item] }, some item, none)

/-- The partial payload of the HTTP `PUT .../items/{id}` path, already past
`ItemSchema(partial=True)`: a present `status` passed `OneOf`. -/
structure ItemUpdate where
  content : Option String
  status : Option String
  due_date : Option (Option Int)
deriving Repr, DecidableEq

/-- The HTTP `PUT /todos/{todo_id}/items/{item_id}` path: schema validation
(422 when a present status is outside the enum), the three-way join filter
`Item.id == item_id, Todo.id == todo_id, Todo.user_id == user_id`, then the
`setattr` merge loop. -/
def http_update_item (db : DB) (todo_id item_id user_id : Int) (upd : ItemUpdate) :
    DB × Option Item × Option String :=
  if (match upd.status with
      | some s => !(VALID_STATUSES.contains s)
      | none => false) then
    (db, none, some "Unprocessable Entity")
  else
    match db.items.find? (fun i => i.id == item_id && i.todo_id == todo_id &&
        itemOwnedBy db user_id i) with
    | none => (db, none, some itemNotFoundMsg)
    | some item =>
      let merge := fun (i : Item) =>
        { i with
          content := upd.content.getD i.content,
          status := upd.status.getD i.status,
          due_date := match upd.due_date with
            | some d => d
            | none => i.due_date }
      ({ db with items := db.items.map (fun i =>
          if i.id == item.id then merge i else i) },
       some (merge item), none)

/-! ### Sample store used by witnesses and counterexamples -/

/-- A todo owned by user 1. -/
def sampleTodoA : Todo :=
  { id := 1, title := "A", description := none, status := "In Progress",
    completed := false, user_id := 1 }

/-- A todo owned by user 2. -/
def sampleTodoB : Todo :=
  { id := 2, title := "B", description := none, status := "In Progress",
    completed := false, user_id := 2 }

/-- An item under user 1's todo. -/
def sampleItemA : Item :=
  { id := 10, content := "a", status := "Pending", due_date := none, todo_id := 1 }

/-- An item under user 2's todo. -/
def sampleItemB : Item :=
  { id := 20, content := "b", status := "Pending", due_date := none, todo_id := 2 }

/-- A two-user store: user 1 owns todo 1 / item 10, user 2 owns todo 2 / item 20. -/
def sampleDB : DB := { todos := [sampleTodoA, sampleTodoB], items := [sampleItemA, sampleItemB] }

/-- The empty partial-update payload. -/
def emptyTodoUpdate : TodoUpdate := { title := none, description := none,
                                      status := none, completed := none }

/-! ### Claim theorems -/

/-- C4.  A call to `update_item_status` by the item's owner with a status
outside the enumeration is rejected with the "Invalid status" message listing
the allowed set, and the store (hence the item's stored status) is unchanged. -/
theorem update_item_status_invalid_rejected (db : DB) (item_id user_id : Int)
    (new_status : String) (i : Item)
    (hfound : get_item_by_id db item_id user_id = some i)
    (hbad : new_status ∉ VALID_STATUSES) :
    update_item_status db item_id user_id new_status =
      (db, none, some ("Invalid status. Must be one of " ++ pyListRepr VALID_STATUSES)) := by
  simp [update_item_status, hfound, invalidStatusMsg]
  exact hbad

theorem update_item_status_invalid_rejected_witness :
    update_item_status sampleDB 10 1 "Bogus" =
      (sampleDB, none, some ("Invalid status. Must be one of " ++ pyListRepr VALID_STATUSES)) :=
  update_item_status_invalid_rejected sampleDB 10 1 "Bogus" sampleItemA (by decide) (by decide)

/-- C10.  In `update_item_status` the ownership-joined lookup is resolved
before status validation: when the lookup fails (nonexistent id or item owned
through another user's todo) the result is the not-found triple for every
`new_status`, and the "Invalid status" message is only ever produced when the
lookup succeeded, i.e. for the item's owner. -/
theorem ownership_before_status_validation (db : DB) (item_id user_id : Int)
    (new_status : String) :
    (get_item_by_id db item_id user_id = none →
      update_item_status db item_id user_id new_status = (db, none, some itemNotFoundMsg)) ∧
    ((update_item_status db item_id user_id new_status).2.2 = some invalidStatusMsg →
      (get_item_by_id db item_id user_id).isSome = true) := by
  constructor
  · intro h
    simp [update_item_status, h]
  · intro h
    cases hfind : get_item_by_id db item_id user_id with
    | none =>
      simp only [update_item_status, hfind] at h
      simp only [Option.some_inj] at h
      exact absurd h (by decide)
    | some i => simp

theorem ownership_before_status_validation_witness :
    update_item_status sampleDB 20 1 "Completed" = (sampleDB, none, some itemNotFoundMsg) :=
  (ownership_before_status_validation sampleDB 20 1 "Completed").1 (by decide)

/-- C5.  A successful owner delete of a todo removes, in the one returned
store, exactly the todo's row and every item row referencing it: afterwards no
item carries the deleted `todo_id` (no orphans), for any number of items. -/
theorem delete_todo_cascade (db : DB) (todo_id user_id : Int)
    (h : (delete_todo db todo_id user_id).2.1 = true) :
    (delete_todo db todo_id user_id).1.todos = db.todos.filter (fun t => t.id != todo_id) ∧
    (delete_todo db todo_id user_id).1.items = db.items.filter (fun i => i.todo_id != todo_id) ∧
    ∀ i ∈ (delete_todo db todo_id user_id).1.items, i.todo_id ≠ todo_id := by
  cases hfind : findTodo db todo_id user_id with
  | none =>
    simp only [delete_todo, hfind] at h
    simp at h
  | some todo =>
    have hp := List.find?_some hfind
    have hid : todo.id = todo_id := by
      simp only [Bool.and_eq_true, beq_iff_eq] at hp
      exact hp.1
    simp only [delete_todo, hfind]
    subst hid
    refine ⟨rfl, rfl, ?_⟩
    intro i hi
    have hmem := (List.mem_filter.mp hi).2
    simpa using hmem

theorem delete_todo_cascade_witness :
    (delete_todo sampleDB 1 1).1.items = sampleDB.items.filter (fun i => i.todo_id != 1) :=
  (delete_todo_cascade sampleDB 1 1 (by decide)).2.1

/-- C7.  A successful single-todo update by its owner changes exactly the
fields present in the payload to the supplied values; absent fields, `id` and
`user_id` keep their prior values, and the stored table is the prior table
with only the target row rewritten the same way. -/
theorem update_todo_partial_merge (db : DB) (todo_id user_id : Int)
    (data : TodoUpdate) (t t' : Todo)
    (hfound : get_todo_by_id db todo_id user_id = some t)
    (hres : (update_todo db todo_id user_id data).2.1 = some t') :
    t'.id = t.id ∧ t'.user_id = t.user_id ∧
    (∀ v, data.title = some v → t'.title = v) ∧
    (data.title = none → t'.title = t.title) ∧
    (∀ v, data.description = some v → t'.description = v) ∧
    (data.description = none → t'.description = t.description) ∧
    (∀ v, data.status = some v → t'.status = v) ∧
    (data.status = none → t'.status = t.status) ∧
    (∀ v, data.completed = some v → t'.completed = v) ∧
    (data.completed = none → t'.completed = t.completed) ∧
    (update_todo db todo_id user_id data).1.todos =
      db.todos.map (fun u => if u.id == t.id then applyTodoUpdate data u else u) := by
  rw [update_todo] at hres ⊢
  rw [get_todo_by_id] at hfound
  rw [hfound] at hres ⊢
  simp only [Option.some_inj] at hres
  subst hres
  refine ⟨?_, ?_, ?_, ?_, ?_, ?_, ?_, ?_, ?_, ?_, rfl⟩ <;>
    first
      | (intro v hv; simp [applyTodoUpdate, hv])
      | (intro hv; simp [applyTodoUpdate, hv])
      | simp [applyTodoUpdate]

/-- A payload setting only the title, for the C7 witness. -/
def sampleTitleUpdate : TodoUpdate :=
  { title := some "T2", description := none, status := none, completed := none }

theorem update_todo_partial_merge_witness :
    ((update_todo sampleDB 1 1 sampleTitleUpdate).2.1.getD sampleTodoA).title = "T2" :=
  (update_todo_partial_merge sampleDB 1 1 sampleTitleUpdate sampleTodoA
    ((update_todo sampleDB 1 1 sampleTitleUpdate).2.1.getD sampleTodoA)
    (by decide) (by decide)).2.2.1 "T2" rfl

/-- C1.  Ownership-scoped lookups: a todo (resp. item) lookup returns an
entity exactly when a row with the requested id exists whose ownership chain
(todo's `user_id`, or item → parent todo → `user_id`) resolves to the
requesting user, and what it returns is such a row; whenever the lookup
fails — nonexistent id or a row owned through another user — each dependent
operation produces one and the same not-found result, so the two failure
causes are indistinguishable. -/
theorem lookup_ownership_uniform (db : DB) (item_id todo_id user_id : Int)
    (new_status : String) (data : TodoUpdate) :
    ((get_todo_by_id db todo_id user_id).isSome = true ↔
      ∃ t ∈ db.todos, t.id = todo_id ∧ t.user_id = user_id) ∧
    ((get_item_by_id db item_id user_id).isSome = true ↔
      ∃ i ∈ db.items, i.id = item_id ∧
        ∃ t ∈ db.todos, t.id = i.todo_id ∧ t.user_id = user_id) ∧
    (∀ t, get_todo_by_id db todo_id user_id = some t →
      t ∈ db.todos ∧ t.id = todo_id ∧ t.user_id = user_id) ∧
    (∀ i, get_item_by_id db item_id user_id = some i →
      i ∈ db.items ∧ i.id = item_id ∧
        ∃ t ∈ db.todos, t.id = i.todo_id ∧ t.user_id = user_id) ∧
    (get_item_by_id db item_id user_id = none →
      update_item_status db item_id user_id new_status = (db, none, some itemNotFoundMsg) ∧
      delete_item db item_id user_id = (db, false, some itemNotFoundMsg)) ∧
    (get_todo_by_id db todo_id user_id = none →
      update_todo db todo_id user_id data = (db, none, some todoNotFoundMsg) ∧
      delete_todo db todo_id user_id = (db, false, some todoNotFoundMsg)) := by
  refine ⟨?_, ?_, ?_, ?_, ?_, ?_⟩
  · simp [get_todo_by_id, findTodo, List.find?_isSome, Bool.and_eq_true, beq_iff_eq]
  · simp [get_item_by_id, itemOwnedBy, List.find?_isSome, List.any_eq_true,
      Bool.and_eq_true, beq_iff_eq]
  · intro t ht
    have hmem := List.mem_of_find?_eq_some ht
    have hp := List.find?_some ht
    simp only [Bool.and_eq_true, beq_iff_eq] at hp
    exact ⟨hmem, hp.1, hp.2⟩
  · intro i hi
    have hmem := List.mem_of_find?_eq_some hi
    have hp := List.find?_some hi
    simp only [itemOwnedBy, Bool.and_eq_true, beq_iff_eq, List.any_eq_true] at hp
    exact ⟨hmem, hp.1, hp.2⟩
  · intro h
    constructor
    · simp [update_item_status, h]
    · simp [delete_item, h]
  · intro h
    rw [get_todo_by_id] at h
    constructor
    · simp [update_todo, h]
    · simp [delete_todo, h]

theorem lookup_ownership_uniform_witness :
    update_item_status sampleDB 20 1 "Pending" = (sampleDB, none, some itemNotFoundMsg) ∧
    delete_item sampleDB 20 1 = (sampleDB, false, some itemNotFoundMsg) :=
  (lookup_ownership_uniform sampleDB 20 2 1 "Pending" emptyTodoUpdate).2.2.2.2.1 (by decide)

/-- 101 todos owned by user 7, exhibiting the unclamped todo listing. -/
def clampDB : DB :=
  { todos := (List.range 101).map (fun n =>
      { id := Int.ofNat n, title := "t", description := none,
        status := "In Progress", completed := false, user_id := 7 }),
    items := [] }

/-- C8.  Item listings clamp the effective `per_page` at 100: any request with
`per_page ≥ 100` behaves exactly like `per_page = 100` and reports 100 as the
effective `per_page`; todo listings apply no clamp — a request for 101 rows
returns all 101 of a user's todos. -/
theorem item_listing_clamp (db : DB) (todo_id user_id : Int) (page per_page : Nat)
    (hpp : 100 ≤ per_page) :
    get_items_for_todo db todo_id user_id page per_page =
      get_items_for_todo db todo_id user_id page 100 ∧
    (∀ pr, (get_items_for_todo db todo_id user_id page per_page).1 = some pr →
      pr.per_page = 100) ∧
    (get_todos clampDB 7 1 101).length = 101 := by
  have hmin : min per_page 100 = 100 := Nat.min_eq_right hpp
  refine ⟨?_, ?_, by decide⟩
  · simp only [get_items_for_todo, hmin, Nat.min_self]
  · intro pr hpr
    cases hfind : findTodo db todo_id user_id with
    | none =>
      simp only [get_items_for_todo, hfind] at hpr
      exact Option.noConfusion hpr
    | some t =>
      simp only [get_items_for_todo, hfind, Option.some_inj] at hpr
      rw [← hpr, hmin]

theorem item_listing_clamp_witness :
    get_items_for_todo sampleDB 1 1 1 150 = get_items_for_todo sampleDB 1 1 1 100 :=
  (item_listing_clamp sampleDB 1 1 1 150 (by decide)).1

/-! ### Branch-shape lemmas for the bulk operations -/

theorem bulk_items_eq_of_empty (db : DB) (user_id : Int) (item_ids : List Int)
    (action : String)
    (h : db.items.filter (bulkItemSelected db user_id item_ids) = []) :
    bulk_update_items db user_id item_ids action = (db, false, some itemNotFoundMsg) := by
  simp [bulk_update_items, List.isEmpty_iff, h]

theorem bulk_items_eq_of_delete (db : DB) (user_id : Int) (item_ids : List Int)
    (h : db.items.filter (bulkItemSelected db user_id item_ids) ≠ []) :
    bulk_update_items db user_id item_ids "delete" =
      ({ db with items :=
          db.items.filter (fun i => !bulkItemSelected db user_id item_ids i) },
       true, none) := by
  simp [bulk_update_items, List.isEmpty_iff, h]

theorem bulk_items_eq_of_status (db : DB) (user_id : Int) (item_ids : List Int)
    (action : String)
    (h : db.items.filter (bulkItemSelected db user_id item_ids) ≠ [])
    (ha : action ∈ VALID_STATUSES) :
    bulk_update_items db user_id item_ids action =
      ({ db with items := db.items.map (fun i =>
          if bulkItemSelected db user_id item_ids i then { i with status := action }
          else i) },
       true, none) := by
  have hne : ¬(action = "delete") := by fin_cases ha <;> decide
  simp [bulk_update_items, List.isEmpty_iff, h, hne, ha]

theorem bulk_items_eq_of_invalid (db : DB) (user_id : Int) (item_ids : List Int)
    (action : String)
    (h : db.items.filter (bulkItemSelected db user_id item_ids) ≠ [])
    (hd : ¬(action = "delete")) (ha : action ∉ VALID_STATUSES) :
    bulk_update_items db user_id item_ids action = (db, false, some invalidActionItemMsg) := by
  simp [bulk_update_items, List.isEmpty_iff, h, hd, ha]

theorem bulk_todos_eq_of_empty (db : DB) (user_id : Int) (todo_ids : List Int)
    (action : String) (status commitFail : Option String)
    (h : db.todos.filter (bulkTodoSelected user_id todo_ids) = []) :
    bulk_update_todos db user_id todo_ids action status commitFail =
      (db, false, some noMatchingTodosMsg) := by
  simp [bulk_update_todos, List.isEmpty_iff, h]

theorem bulk_todos_eq_of_delete (db : DB) (user_id : Int) (todo_ids : List Int)
    (status : Option String)
    (h : db.todos.filter (bulkTodoSelected user_id todo_ids) ≠ []) :
    bulk_update_todos db user_id todo_ids "delete" status none =
      ({ todos := db.todos.filter (fun t => !bulkTodoSelected user_id todo_ids t),
         items := db.items.filter (fun i =>
           !(db.todos.any (fun t => bulkTodoSelected user_id todo_ids t &&
               t.id == i.todo_id))) },
       true, none) := by
  simp [bulk_update_todos, List.isEmpty_iff, h]

theorem bulk_todos_eq_of_status (db : DB) (user_id : Int) (todo_ids : List Int)
    (status : Option String)
    (h : db.todos.filter (bulkTodoSelected user_id todo_ids) ≠ [])
    (hs : statusFalsy status = false) :
    bulk_update_todos db user_id todo_ids "update_status" status none =
      ({ db with todos := db.todos.map (fun t =>
          if bulkTodoSelected user_id todo_ids t then { t with status := status.getD "" }
          else t) },
       true, none) := by
  simp [bulk_update_todos, List.isEmpty_iff, h, hs]

theorem bulk_todos_eq_of_missing (db : DB) (user_id : Int) (todo_ids : List Int)
    (status commitFail : Option String)
    (h : db.todos.filter (bulkTodoSelected user_id todo_ids) ≠ [])
    (hs : statusFalsy status = true) :
    bulk_update_todos db user_id todo_ids "update_status" status commitFail =
      (db, false, some missingStatusMsg) := by
  simp [bulk_update_todos, List.isEmpty_iff, h, hs]

theorem bulk_todos_eq_of_fail (db : DB) (user_id : Int) (todo_ids : List Int)
    (action : String) (status : Option String) (msg : String)
    (h : db.todos.filter (bulkTodoSelected user_id todo_ids) ≠ [])
    (hact : action = "delete" ∨ (action = "update_status" ∧ statusFalsy status = false)) :
    bulk_update_todos db user_id todo_ids action status (some msg) =
      (db, false, some msg) := by
  rcases hact with rfl | ⟨rfl, hs⟩
  · simp [bulk_update_todos, List.isEmpty_iff, h]
  · simp [bulk_update_todos, List.isEmpty_iff, h, hs]

theorem bulk_todos_eq_of_invalid (db : DB) (user_id : Int) (todo_ids : List Int)
    (action : String) (status commitFail : Option String)
    (h : db.todos.filter (bulkTodoSelected user_id todo_ids) ≠ [])
    (hd : ¬(action = "delete")) (hu : ¬(action = "update_status")) :
    bulk_update_todos db user_id todo_ids action status commitFail =
      (db, false, some invalidActionTodoMsg) := by
  simp [bulk_update_todos, List.isEmpty_iff, h, hd, hu]

/-- C2.  Bulk operations restrict the requested ids to rows that exist and are
owned by the requesting user: when that restricted set is empty the operation
fails with the not-found error (whatever the dropped ids were), otherwise the
action — delete, or a status assignment — is applied to exactly the restricted
set, and every row outside it (in particular every row owned by another user)
survives unchanged. -/
theorem bulk_ownership_filter (db : DB) (user_id : Int)
    (item_ids todo_ids : List Int) (status : Option String) :
    (db.items.filter (bulkItemSelected db user_id item_ids) = [] →
      ∀ action, bulk_update_items db user_id item_ids action =
        (db, false, some itemNotFoundMsg)) ∧
    (db.items.filter (bulkItemSelected db user_id item_ids) ≠ [] →
      bulk_update_items db user_id item_ids "delete" =
        ({ db with items :=
            db.items.filter (fun i => !bulkItemSelected db user_id item_ids i) },
         true, none) ∧
      ∀ action ∈ VALID_STATUSES,
        bulk_update_items db user_id item_ids action =
          ({ db with items := db.items.map (fun i =>
              if bulkItemSelected db user_id item_ids i then { i with status := action }
              else i) },
           true, none)) ∧
    (∀ action, ∀ i ∈ db.items, bulkItemSelected db user_id item_ids i = false →
      i ∈ (bulk_update_items db user_id item_ids action).1.items) ∧
    (db.todos.filter (bulkTodoSelected user_id todo_ids) = [] →
      ∀ action, bulk_update_todos db user_id todo_ids action status none =
        (db, false, some noMatchingTodosMsg)) ∧
    (db.todos.filter (bulkTodoSelected user_id todo_ids) ≠ [] →
      bulk_update_todos db user_id todo_ids "delete" status none =
        ({ todos := db.todos.filter (fun t => !bulkTodoSelected user_id todo_ids t),
           items := db.items.filter (fun i =>
             !(db.todos.any (fun t => bulkTodoSelected user_id todo_ids t &&
                 t.id == i.todo_id))) },
         true, none) ∧
      (statusFalsy status = false →
        bulk_update_todos db user_id todo_ids "update_status" status none =
          ({ db with todos := db.todos.map (fun t =>
              if bulkTodoSelected user_id todo_ids t then { t with status := status.getD "" }
              else t) },
           true, none))) ∧
    (∀ action commitFail, ∀ t ∈ db.todos,
      bulkTodoSelected user_id todo_ids t = false →
      t ∈ (bulk_update_todos db user_id todo_ids action status commitFail).1.todos) := by
  refine ⟨?_, ?_, ?_, ?_, ?_, ?_⟩
  · intro h action
    exact bulk_items_eq_of_empty db user_id item_ids action h
  · intro h
    exact ⟨bulk_items_eq_of_delete db user_id item_ids h,
      fun action ha => bulk_items_eq_of_status db user_id item_ids action h ha⟩
  · intro action i hi hsel
    by_cases hemp : db.items.filter (bulkItemSelected db user_id item_ids) = []
    · rw [bulk_items_eq_of_empty db user_id item_ids action hemp]
      exact hi
    · by_cases hdel : action = "delete"
      · subst hdel
        rw [bulk_items_eq_of_delete db user_id item_ids hemp]
        exact List.mem_filter.mpr ⟨hi, by simp [hsel]⟩
      · by_cases hval : action ∈ VALID_STATUSES
        · rw [bulk_items_eq_of_status db user_id item_ids action hemp hval]
          exact List.mem_map.mpr ⟨i, hi, by simp [hsel]⟩
        · rw [bulk_items_eq_of_invalid db user_id item_ids action hemp hdel hval]
          exact hi
  · intro h action
    exact bulk_todos_eq_of_empty db user_id todo_ids action status none h
  · intro h
    exact ⟨bulk_todos_eq_of_delete db user_id todo_ids status h,
      fun hs => bulk_todos_eq_of_status db user_id todo_ids status h hs⟩
  · intro action commitFail t ht hsel
    by_cases hemp : db.todos.filter (bulkTodoSelected user_id todo_ids) = []
    · rw [bulk_todos_eq_of_empty db user_id todo_ids action status commitFail hemp]
      exact ht
    · by_cases hdel : action = "delete"
      · subst hdel
        cases commitFail with
        | none =>
          rw [bulk_todos_eq_of_delete db user_id todo_ids status hemp]
          exact List.mem_filter.mpr ⟨ht, by simp [hsel]⟩
        | some msg =>
          rw [bulk_todos_eq_of_fail db user_id todo_ids "delete" status msg hemp
            (Or.inl rfl)]
          exact ht
      · by_cases hupd : action = "update_status"
        · subst hupd
          by_cases hf : statusFalsy status = true
          · rw [bulk_todos_eq_of_missing db user_id todo_ids status commitFail hemp hf]
            exact ht
          · have hf' : statusFalsy status = false := Bool.eq_false_iff.mpr hf
            cases commitFail with
            | none =>
              rw [bulk_todos_eq_of_status db user_id todo_ids status hemp hf']
              exact List.mem_map.mpr ⟨t, ht, by simp [hsel]⟩
            | some msg =>
              rw [bulk_todos_eq_of_fail db user_id todo_ids "update_status" status msg
                hemp (Or.inr ⟨rfl, hf'⟩)]
              exact ht
        · rw [bulk_todos_eq_of_invalid db user_id todo_ids action status commitFail
            hemp hdel hupd]
          exact ht

theorem bulk_ownership_filter_witness :
    bulk_update_todos sampleDB 1 [1, 2] "delete" none none =
      ({ todos := [sampleTodoB], items := [sampleItemB] }, true, none) := by
  have h := ((bulk_ownership_filter sampleDB 1 [1, 2] [1, 2] none).2.2.2.2.1
    (by decide)).1
  rw [h]
  decide

/-- C9 counterexample.  A bulk todo `update_status` call with no status and an
empty ownership-filtered set fails with the not-found error, not the distinct
missing-status error, refuting the claim as universally stated. -/
theorem bulk_missing_status_cex :
    bulk_update_todos { todos := [], items := [] } 1 [1] "update_status" none none =
      ({ todos := [], items := [] }, false, some noMatchingTodosMsg) ∧
    noMatchingTodosMsg ≠ missingStatusMsg := ⟨by decide, by decide⟩

/-- C9 (amended).  A bulk todo `update_status` call with a missing or empty
status argument changes no todo; it fails with the distinct missing-status
error when the ownership-filtered set is non-empty, and with the not-found
error when that set is empty (the emptiness check runs first). -/
theorem bulk_missing_status_order (db : DB) (user_id : Int) (todo_ids : List Int)
    (status : Option String) (commitFail : Option String)
    (hfalsy : statusFalsy status = true) :
    (db.todos.filter (bulkTodoSelected user_id todo_ids) ≠ [] →
      bulk_update_todos db user_id todo_ids "update_status" status commitFail =
        (db, false, some missingStatusMsg)) ∧
    (db.todos.filter (bulkTodoSelected user_id todo_ids) = [] →
      bulk_update_todos db user_id todo_ids "update_status" status commitFail =
        (db, false, some noMatchingTodosMsg)) := by
  constructor <;> intro h <;> simp [bulk_update_todos, List.isEmpty_iff, h, hfalsy]

theorem bulk_missing_status_order_witness :
    bulk_update_todos sampleDB 1 [1] "update_status" none none =
      (sampleDB, false, some missingStatusMsg) :=
  (bulk_missing_status_order sampleDB 1 [1] none none (by decide)).1 (by decide)

/-- C6 counterexample.  When the commit raises an exception whose `str(e)` is
"database is locked", `bulk_update_todos` reports that very string to its
caller, not the generic "Internal server error" the claim requires. -/
theorem bulk_todos_error_leak_cex :
    (bulk_update_todos sampleDB 1 [1] "delete" none (some "database is locked")).2.2 =
      some "database is locked" ∧
    "database is locked" ≠ "Internal server error" := ⟨by decide, by decide⟩

/-- C6 (amended).  For `bulk_update_todos`, a persistence failure while
applying the action rolls the whole transaction back — the store is returned
unchanged — and the operation reports failure carrying the exception's own
message string (`str(e)`), not a generic "Internal server error"
(`bulk_update_items` installs no handler at all, so a failure there simply
propagates). -/
theorem bulk_todos_rollback_on_failure (db : DB) (user_id : Int)
    (todo_ids : List Int) (action : String) (status : Option String) (msg : String)
    (hne : db.todos.filter (bulkTodoSelected user_id todo_ids) ≠ [])
    (hact : action = "delete" ∨ (action = "update_status" ∧ statusFalsy status = false)) :
    bulk_update_todos db user_id todo_ids action status (some msg) =
      (db, false, some msg) := by
  rcases hact with rfl | ⟨rfl, hs⟩
  · simp [bulk_update_todos, List.isEmpty_iff, hne]
  · simp [bulk_update_todos, List.isEmpty_iff, hne, hs]

theorem bulk_todos_rollback_on_failure_witness :
    bulk_update_todos sampleDB 1 [1] "delete" none (some "disk failure") =
      (sampleDB, false, some "disk failure") :=
  bulk_todos_rollback_on_failure sampleDB 1 [1] "delete" none "disk failure"
    (by decide) (Or.inl rfl)

/-- The Item-status invariant of the spec: every persisted item's status is
one of the three enumerated values. -/
def statusInv (db : DB) : Prop := ∀ i ∈ db.items, i.status ∈ VALID_STATUSES

/-- A status accepted by `ItemSchema` is in the enumeration. -/
theorem itemSchemaLoadStatus_mem (s : Option String) (st : String)
    (h : itemSchemaLoadStatus s = some st) : st ∈ VALID_STATUSES := by
  cases s with
  | none =>
    simp only [itemSchemaLoadStatus, Option.some_inj] at h
    rw [← h]
    decide
  | some v =>
    by_cases hv : v ∈ VALID_STATUSES
    · simp [itemSchemaLoadStatus, hv] at h
      rwa [← h]
    · simp [itemSchemaLoadStatus, hv] at h

/-- C3 counterexample.  `add_item_to_todo` performs no status validation: with
status "Bogus" it succeeds (no error) and persists an item whose status is
outside the enumeration, refuting the claim for one of the operations it
names. -/
theorem item_status_enum_cex :
    (add_item_to_todo sampleDB 1 1 "x" none "Bogus" 99).2.2 = none ∧
    ({ id := 99, content := "x", status := "Bogus", due_date := none,
       todo_id := 1 } : Item) ∈ (add_item_to_todo sampleDB 1 1 "x" none "Bogus" 99).1.items ∧
    ("Bogus" : String) ∉ VALID_STATUSES := ⟨by decide, by decide, by decide⟩

/-- C3 (amended).  `update_item_status`, `bulk_update_items` (any action) and
the schema-validated HTTP item create/update paths preserve the invariant that
every persisted item status lies in {Pending, Partially Completed, Completed};
`add_item_to_todo` itself performs no status validation and persists whatever
status it is given. -/
theorem item_status_enum_preserved (db : DB) (item_id todo_id user_id new_id : Int)
    (new_status action content : String) (status_in : Option String)
    (due_date : Option Int) (item_ids : List Int) (upd : ItemUpdate)
    (hinv : statusInv db) :
    statusInv (update_item_status db item_id user_id new_status).1 ∧
    statusInv (bulk_update_items db user_id item_ids action).1 ∧
    statusInv (http_create_item db todo_id user_id content status_in due_date new_id).1 ∧
    statusInv (http_update_item db todo_id item_id user_id upd).1 := by
  refine ⟨?_, ?_, ?_, ?_⟩
  · cases hfind : get_item_by_id db item_id user_id with
    | none =>
      intro i hi
      simp only [update_item_status, hfind] at hi
      exact hinv i hi
    | some item =>
      by_cases hval : new_status ∈ VALID_STATUSES
      · have hc : VALID_STATUSES.contains new_status = true := List.elem_iff.mpr hval
        intro i hi
        simp only [update_item_status, hfind, hc, if_true] at hi
        rcases List.mem_map.mp hi with ⟨j, hj, rfl⟩
        by_cases hje : (j.id == item.id) = true
        · simpa [hje] using hval
        · simpa [hje] using hinv j hj
      · have hc : VALID_STATUSES.contains new_status = false :=
          Bool.eq_false_iff.mpr (fun hcc => hval (List.elem_iff.mp hcc))
        intro i hi
        simp only [update_item_status, hfind, hc, if_false, Bool.false_eq_true] at hi
        exact hinv i hi
  · by_cases hemp : db.items.filter (bulkItemSelected db user_id item_ids) = []
    · rw [bulk_items_eq_of_empty db user_id item_ids action hemp]
      exact hinv
    · by_cases hdel : action = "delete"
      · subst hdel
        rw [bulk_items_eq_of_delete db user_id item_ids hemp]
        intro i hi
        exact hinv i (List.mem_filter.mp hi).1
      · by_cases hval : action ∈ VALID_STATUSES
        · rw [bulk_items_eq_of_status db user_id item_ids action hemp hval]
          intro i hi
          rcases List.mem_map.mp hi with ⟨j, hj, rfl⟩
          by_cases hs : bulkItemSelected db user_id item_ids j = true
          · simpa [hs] using hval
          · simpa [hs] using hinv j hj
        · rw [bulk_items_eq_of_invalid db user_id item_ids action hemp hdel hval]
          exact hinv
  · cases hst : itemSchemaLoadStatus status_in with
    | none =>
      intro i hi
      simp only [http_create_item, hst] at hi
      exact hinv i hi
    | some st =>
      cases hfind : findTodo db todo_id user_id with
      | none =>
        intro i hi
        simp only [http_create_item, hst, hfind] at hi
        exact hinv i hi
      | some todo =>
        intro i hi
        simp only [http_create_item, hst, hfind] at hi
        rcases List.mem_append.mp hi with h1 | h2
        · exact hinv i h1
        · rw [List.mem_singleton.mp h2]
          exact itemSchemaLoadStatus_mem status_in st hst
  · by_cases hguard : (match upd.status with
      | some s => !(VALID_STATUSES.contains s)
      | none => false) = true
    · intro i hi
      simp only [http_update_item, if_pos hguard] at hi
      exact hinv i hi
    · intro i hi
      simp only [http_update_item, if_neg hguard] at hi
      cases hfind : db.items.find? (fun i => i.id == item_id && i.todo_id == todo_id &&
          itemOwnedBy db user_id i) with
      | none =>
        rw [hfind] at hi
        exact hinv i hi
      | some item =>
        rw [hfind] at hi
        simp only at hi
        rcases List.mem_map.mp hi with ⟨j, hj, rfl⟩
        by_cases hje : (j.id == item.id) = true
        · cases hsu : upd.status with
          | none => simpa [hje, hsu] using hinv j hj
          | some s =>
            have hv : s ∈ VALID_STATUSES := by
              rw [hsu] at hguard
              simpa using hguard
            simpa [hje, hsu] using hv
        · simpa [hje] using hinv j hj

theorem item_status_enum_preserved_witness :
    statusInv (update_item_status sampleDB 10 1 "Completed").1 :=
  (item_status_enum_preserved sampleDB 10 1 1 99 "Completed" "Completed" "c" none none
    [10] { content := none, status := none, due_date := none }
    (show ∀ i ∈ sampleDB.items, i.status ∈ VALID_STATUSES by decide)).1

end TaskApi
